import Mathlib

/-!
# fake_camera: a shallow embedding of `fake_camera.cpp`

The node loads a still image, republishes it at a configurable rate and
reacts to dynamic-reconfigure events.  The definitions below follow
`src/ros/src/util/packages/fake_drivers/nodes/fake_camera/fake_camera.cpp`
function by function; the external libraries (OpenCV decoder, ROS clock,
dynamic-reconfigure transport) appear as explicit parameters or inputs.
-/

namespace FakeCamera

/-! ## Data model -/

/-- One entry of the table returned by `config.__getParamDescriptions__()`:
the parameter name and its `uint32_t` reconfiguration level. -/
structure ParamDescription where
  name : String
  level : Nat
deriving DecidableEq, Repr

/-- The value of `fake_drivers::FakeCameraConfig` seen by the node.  The
generated header is not part of the sources; the callback reads exactly the
members `image_file`, `fps` and the description table, which are the fields
here. -/
structure FakeCameraConfig where
  image_file : String
  fps : Int
  paramDescriptions : List ParamDescription
deriving DecidableEq, Repr

/-- Entries of a description table are `uint32_t` levels. -/
def levels_fit (config : FakeCameraConfig) : Prop :=
  ∀ d ∈ config.paramDescriptions, d.level < 2 ^ 32

/-- A name occurs in the description table. -/
def registered (config : FakeCameraConfig) (name : String) : Prop :=
  ∃ d ∈ config.paramDescriptions, d.name = name

/-! ## Change detection (`is_1st`, `get_level`, `is_update`) -/

/-- Source: `is_1st`, lines 74-77. -/
def is_1st (level : Nat) : Bool :=
  level == 0xffffffff

/-- The loop of `get_level` over the description table: the level of the
first entry whose name equals `name`, and 0 when the loop falls through. -/
def get_level_loop (params : List ParamDescription) (name : String) : Nat :=
  match params with
  | [] => 0
  | p :: rest => if name = p.name then p.level else get_level_loop rest name

/-- Source: `get_level`, lines 79-91. -/
def get_level (config : FakeCameraConfig) (name : String) : Nat :=
  get_level_loop config.paramDescriptions name

/-- Source: `is_update`, lines 93-97:
`name_level ? (level & name_level) != 0 : false`. -/
def is_update (config : FakeCameraConfig) (level : Nat) (name : String) : Bool :=
  let name_level := get_level config name
  if name_level ≠ 0 then decide ((level &&& name_level) ≠ 0) else false

/-! ## Images and messages -/

/-- The fields of OpenCV's `IplImage` that the node reads.  The scalar
members are C `int`s; `imageData` is the byte buffer the pointer designates. -/
structure IplImage where
  nChannels : Int
  width : Int
  height : Int
  imageSize : Int
  widthStep : Int
  imageData : List Nat
deriving DecidableEq, Repr

/-- A decoded buffer as OpenCV produces it: non-negative `int` dimensions,
`imageSize = height * widthStep`, and `imageSize` bytes behind `imageData`. -/
def valid_image (img : IplImage) : Prop :=
  0 ≤ img.width ∧ img.width < 2 ^ 31 ∧
  0 ≤ img.height ∧ img.height < 2 ^ 31 ∧
  0 ≤ img.widthStep ∧ img.widthStep < 2 ^ 31 ∧
  0 ≤ img.imageSize ∧ img.imageSize < 2 ^ 31 ∧
  img.imageSize = img.height * img.widthStep ∧
  (img.imageData.length : Int) = img.imageSize

/-- The header of `sensor_msgs::Image`: `seq` and the two stamp members are
`uint32_t`, `frame_id` is a `std::string` kept as its bytes. -/
structure Header where
  seq : Nat
  stamp_sec : Nat
  stamp_nsec : Nat
  frame_id : List Nat
deriving DecidableEq, Repr

/-- The message `sensor_msgs::Image`. -/
structure Image where
  header : Header
  height : Nat
  width : Nat
  encoding : String
  is_bigendian : Nat
  step : Nat
  data : List Nat
deriving DecidableEq, Repr

/-- A default-constructed `sensor_msgs::Image`. -/
def Image.default : Image :=
  ⟨⟨0, 0, 0, []⟩, 0, 0, "", 0, 0, []⟩

/-- The tag `sensor_msgs::image_encodings::MONO8`. -/
def MONO8 : String := "mono8"

/-- The tag `sensor_msgs::image_encodings::RGB8`. -/
def RGB8 : String := "rgb8"

/-- Conversion of a C `int` to `uint32_t`. -/
def toU32 (x : Int) : Nat :=
  (x % 2 ^ 32).toNat

/-- Source: `update_img_msg`, lines 44-72.  `cvLoadImage` is the decoder
(`none` for a null result); `img_p` is the slot `*img_p`; the result is the
slot and the message after the call. -/
def update_img_msg (cvLoadImage : String → Option IplImage) (image_file : String)
    (img_p : Option IplImage) (msg : Image) : Option IplImage × Image :=
  if image_file = "" then (img_p, msg)
  else
    match cvLoadImage image_file with
    | none => (img_p, msg)
    | some img =>
      (some img,
        { msg with
          width := toU32 img.width
          height := toU32 img.height
          is_bigendian := 0
          step := toU32 img.widthStep
          data := img.imageData.take img.imageSize.toNat
          encoding := if img.nChannels = 1 then MONO8 else RGB8 })

/-! ## The reconfiguration callback -/

/-- The limiter `ros::Rate(frequency)`; its cycle time is fixed by the
frequency it was built from, which is what is recorded. -/
structure Rate where
  frequency : Int
deriving DecidableEq, Repr

/-- The objects `callback` reaches through `img_p`, `msg` and `rate_p`. -/
structure Slots where
  img : Option IplImage
  msg : Image
  rate : Option Rate
deriving DecidableEq, Repr

/-- Source: `callback`, lines 99-120 (the writes to `std::cerr` are left out). -/
def callback (cvLoadImage : String → Option IplImage) (config : FakeCameraConfig)
    (level : Nat) (s : Slots) : Slots :=
  let s1 :=
    if is_update config level "image_file" then
      let r := update_img_msg cvLoadImage config.image_file s.img s.msg
      { s with img := r.1, msg := r.2 }
    else s
  if is_update config level "fps" then
    { s1 with rate := some ⟨config.fps⟩ }
  else s1

/-! ## The publish loop of `main` -/

/-- A reading of `ros::Time::now()`: seconds and nanoseconds within the second. -/
structure Time where
  sec : Nat
  nsec : Nat
deriving DecidableEq, Repr

/-- The ROS library function `ros::Time::toNSec`, which is not part of the
sources: the total nanoseconds since the epoch as a `uint64_t`,
`(uint64_t)sec * 1000000000ull + (uint64_t)nsec`. -/
def Time.toNSec (t : Time) : Nat :=
  (t.sec * 1000000000 + t.nsec) % 2 ^ 64

/-- A reconfiguration event delivered by the dynamic-reconfigure server. -/
structure Event where
  config : FakeCameraConfig
  level : Nat
deriving DecidableEq, Repr

/-- What the environment supplies to one iteration of the loop: the value
of `(uint32_t) ros::Time::now().toSec()` (a floating-point conversion, taken
as given), the second clock reading, and the events that `ros::spinOnce()`
dispatches. -/
structure Tick where
  stamp_sec : Nat
  now : Time
  events : List Event
deriving DecidableEq, Repr

/-- The variables of `main`.  `boost::bind(&callback, _1, _2, &img, msg, &rate)`
stores `&img` and `&rate` as pointers to the locals and stores `msg` by
value, so the callback's `msg` parameter designates `bound_msg`, the copy
inside the bound function object, and not the local `msg`. -/
structure MainState where
  img : Option IplImage
  msg : Image
  bound_msg : Image
  rate : Option Rate
  count : Nat
deriving DecidableEq, Repr

/-- One invocation of the bound callback `f` by the server. -/
def dispatch (cvLoadImage : String → Option IplImage) (s : MainState) (ev : Event) :
    MainState :=
  let r := callback cvLoadImage ev.config ev.level ⟨s.img, s.bound_msg, s.rate⟩
  { s with img := r.img, bound_msg := r.msg, rate := r.rate }

/-- Source: the body of the `while (ros::ok())` loop, lines 147-154.  The
result is the message handed to `pub.publish` and the state after
`count++`.  `frame_id = count` assigns a single `char` to the string. -/
def loop_body (cvLoadImage : String → Option IplImage) (t : Tick) (s : MainState) :
    Image × MainState :=
  let msg : Image :=
    { s.msg with
      header :=
        { seq := s.count
          frame_id := [s.count % 256]
          stamp_sec := t.stamp_sec
          stamp_nsec := t.now.toNSec % 2 ^ 32 } }
  let s1 := t.events.foldl (dispatch cvLoadImage) { s with msg := msg }
  (msg, { s1 with count := (s1.count + 1) % 2 ^ 32 })

/-- The loop of `main`, one iteration per element of `ticks` (the iterations
for which `ros::ok()` holds); the result lists the published messages. -/
def publish_loop (cvLoadImage : String → Option IplImage) :
    List Tick → MainState → List Image
  | [], _ => []
  | t :: ts, s =>
    (loop_body cvLoadImage t s).1 :: publish_loop cvLoadImage ts (loop_body cvLoadImage t s).2

/-- Source: `main`, lines 132-141: the state when the loop is entered.
`startup` lists the callbacks the server makes during `setCallback`. -/
def main_init (cvLoadImage : String → Option IplImage) (image_file : String)
    (startup : List Event) : MainState :=
  let r := update_img_msg cvLoadImage image_file none Image.default
  startup.foldl (dispatch cvLoadImage) ⟨r.1, r.2, r.2, some ⟨30⟩, 0⟩

/-- Source: `main`, lines 122-160.  `none` is `std::exit(1)` for a missing
argument; otherwise the messages published while the loop runs. -/
def main (cvLoadImage : String → Option IplImage) (argv : List String)
    (startup : List Event) (ticks : List Tick) : Option (List Image) :=
  match argv with
  | _ :: image_file :: _ =>
    some (publish_loop cvLoadImage ticks (main_init cvLoadImage image_file startup))
  | _ => none

/-! ## Sample inputs -/

/-- A 1x1 three-channel image. -/
def imgA : IplImage := ⟨3, 1, 1, 4, 4, [10, 20, 30, 0]⟩

/-- A 2x1 single-channel image. -/
def imgB : IplImage := ⟨1, 2, 1, 4, 4, [7, 9, 0, 0]⟩

/-- A decoder that knows two files. -/
def decAB (path : String) : Option IplImage :=
  if path = "a.png" then some imgA else if path = "b.png" then some imgB else none

/-- A description table giving each field its own bit. -/
def sampleTable : List ParamDescription := [⟨"image_file", 1⟩, ⟨"fps", 2⟩]

/-- A run of two iterations; the event that selects `b.png` arrives in the
first one, after its message was published. -/
def sampleTicks : List Tick :=
  [⟨100, ⟨100, 5⟩, [⟨⟨"b.png", 30, sampleTable⟩, 1⟩]⟩, ⟨101, ⟨101, 6⟩, []⟩]

/-! ## Lemmas on the table lookup -/

theorem get_level_loop_mem (params : List ParamDescription) (name : String)
    (h : ∃ d ∈ params, d.name = name) :
    ∃ d ∈ params, d.name = name ∧ get_level_loop params name = d.level := by
  induction params with
  | nil => obtain ⟨d, hd, _⟩ := h; cases hd
  | cons p rest ih =>
    by_cases hp : name = p.name
    · exact ⟨p, List.mem_cons_self _ _, hp.symm, by simp [get_level_loop, hp]⟩
    · obtain ⟨d, hd, hn⟩ := h
      rcases List.mem_cons.mp hd with rfl | hd
      · exact absurd hn.symm hp
      · obtain ⟨e, he, hen, hlev⟩ := ih ⟨d, hd, hn⟩
        exact ⟨e, List.mem_cons_of_mem _ he, hen, by simp [get_level_loop, hp, hlev]⟩

theorem get_level_loop_absent (params : List ParamDescription) (name : String)
    (h : ∀ d ∈ params, d.name ≠ name) : get_level_loop params name = 0 := by
  induction params with
  | nil => rfl
  | cons p rest ih =>
    have hp : name ≠ p.name := fun e => h p (List.mem_cons_self _ _) e.symm
    simp only [get_level_loop, hp, if_false]
    exact ih fun d hd => h d (List.mem_cons_of_mem _ hd)

theorem land_mask_self (l : Nat) (hl : l < 2 ^ 32) : 0xffffffff &&& l = l := by
  have h : (0xffffffff : Nat) = 2 ^ 32 - 1 := by norm_num
  rw [h, Nat.land_comm, Nat.and_pow_two_sub_one_eq_mod, Nat.mod_eq_of_lt hl]

/-! ## Claims on change detection -/

/-- C1 (sentinel and zero bitmask): for a table of `uint32_t` levels and a
name that occurs in it, all of whose entries carry a non-zero level,
`is_update config 0xffffffff name` is true; and `is_update config 0 name`
is false for every table and every name. -/
theorem is_update_sentinel_and_zero (config : FakeCameraConfig) (name : String)
    (hfit : levels_fit config) (hreg : registered config name)
    (hnz : ∀ d ∈ config.paramDescriptions, d.name = name → d.level ≠ 0) :
    is_update config 0xffffffff name = true ∧
      ∀ (c : FakeCameraConfig) (n : String), is_update c 0 n = false := by
  constructor
  · obtain ⟨d, hd, hn, hlev⟩ := get_level_loop_mem config.paramDescriptions name hreg
    have h0 : d.level ≠ 0 := hnz d hd hn
    simp only [is_update, get_level, hlev, land_mask_self d.level (hfit d hd)]
    simp [h0]
  · intro c n
    simp [is_update]

/-- Witness for C1 on the two-field table of the node. -/
theorem is_update_sentinel_and_zero_witness :
    is_update ⟨"a.png", 30, [⟨"image_file", 1⟩, ⟨"fps", 2⟩]⟩ 0xffffffff "fps" = true ∧
      ∀ (c : FakeCameraConfig) (n : String), is_update c 0 n = false :=
  is_update_sentinel_and_zero ⟨"a.png", 30, [⟨"image_file", 1⟩, ⟨"fps", 2⟩]⟩ "fps"
    (by intro d hd; simp at hd; rcases hd with rfl | rfl <;> norm_num)
    ⟨⟨"fps", 2⟩, by simp, rfl⟩
    (by intro d hd; simp at hd; rcases hd with rfl | rfl <;> simp)

/-- C5 (conservative default): for every table, every bitmask `level` and
every name that is absent from the table, or that occurs in it only with
level 0, `get_level` is 0 and `is_update config level name` is false; this
includes the sentinel `0xffffffff`. -/
theorem is_update_unregistered_or_zero (config : FakeCameraConfig) (level : Nat)
    (name : String)
    (h : (∀ d ∈ config.paramDescriptions, d.name ≠ name) ∨
      (registered config name ∧
        ∀ d ∈ config.paramDescriptions, d.name = name → d.level = 0)) :
    get_level config name = 0 ∧ is_update config level name = false ∧
      is_update config 0xffffffff name = false := by
  have h0 : get_level config name = 0 := by
    rcases h with h | ⟨hreg, hz⟩
    · exact get_level_loop_absent _ _ h
    · obtain ⟨d, hd, hn, hlev⟩ := get_level_loop_mem config.paramDescriptions name hreg
      simp only [get_level, hlev]
      exact hz d hd hn
  refine ⟨h0, ?_, ?_⟩ <;> simp [is_update, h0]

/-- Witness for C5: a name registered with level 0, probed with the sentinel. -/
theorem is_update_unregistered_or_zero_witness :
    get_level ⟨"", 30, [⟨"image_file", 0⟩, ⟨"fps", 2⟩]⟩ "image_file" = 0 ∧
      is_update ⟨"", 30, [⟨"image_file", 0⟩, ⟨"fps", 2⟩]⟩ 0xffffffff "image_file" = false ∧
      is_update ⟨"", 30, [⟨"image_file", 0⟩, ⟨"fps", 2⟩]⟩ 0xffffffff "image_file" = false :=
  is_update_unregistered_or_zero ⟨"", 30, [⟨"image_file", 0⟩, ⟨"fps", 2⟩]⟩ 0xffffffff
    "image_file"
    (Or.inr ⟨⟨⟨"image_file", 0⟩, by simp, rfl⟩,
      by intro d hd hn; simp at hd; rcases hd with rfl | rfl <;> simp_all⟩)

/-! ## Claims on `update_img_msg` -/

/-- C4 (failure keeps the state): when the path is empty or the decoder
fails on it, `update_img_msg` returns the image slot and the whole message
(width, height, step, is_bigendian, encoding, data, header) exactly as they
were; contrapositively the state changes only for a non-empty path that
decodes. -/
theorem update_img_msg_failure_keeps_state (cvLoadImage : String → Option IplImage)
    (image_file : String) (img_p : Option IplImage) (msg : Image)
    (h : image_file = "" ∨ cvLoadImage image_file = none) :
    update_img_msg cvLoadImage image_file img_p msg = (img_p, msg) := by
  unfold update_img_msg
  rcases h with h | h
  · simp [h]
  · simp [h]

/-- Witness for C4: a decoder that fails on every path. -/
theorem update_img_msg_failure_keeps_state_witness :
    update_img_msg (fun _ => none) "missing.png" (some ⟨3, 1, 1, 3, 3, [7, 8, 9]⟩)
        Image.default =
      (some ⟨3, 1, 1, 3, 3, [7, 8, 9]⟩, Image.default) :=
  update_img_msg_failure_keeps_state (fun _ => none) "missing.png"
    (some ⟨3, 1, 1, 3, 3, [7, 8, 9]⟩) Image.default (Or.inr rfl)

/-- The state changes only when the path is non-empty and decoding succeeds. -/
theorem update_img_msg_changes_only_on_success (cvLoadImage : String → Option IplImage)
    (image_file : String) (img_p : Option IplImage) (msg : Image)
    (h : update_img_msg cvLoadImage image_file img_p msg ≠ (img_p, msg)) :
    image_file ≠ "" ∧ ∃ img, cvLoadImage image_file = some img := by
  constructor
  · intro he
    exact h (update_img_msg_failure_keeps_state _ _ _ _ (Or.inl he))
  · cases hd : cvLoadImage image_file with
    | none => exact absurd (update_img_msg_failure_keeps_state _ _ _ _ (Or.inr hd)) h
    | some img => exact ⟨img, rfl⟩

/-- C7 (encoding by channel count): after a successful decode the message's
encoding is MONO8 when `nChannels = 1` and RGB8 for every other channel
count, so it depends on the channel count alone, and `is_bigendian` is 0. -/
theorem update_img_msg_encoding (cvLoadImage : String → Option IplImage)
    (image_file : String) (img_p : Option IplImage) (msg : Image) (img : IplImage)
    (hpath : image_file ≠ "") (hdec : cvLoadImage image_file = some img) :
    (update_img_msg cvLoadImage image_file img_p msg).2.encoding =
        (if img.nChannels = 1 then MONO8 else RGB8) ∧
      (img.nChannels = 1 →
        (update_img_msg cvLoadImage image_file img_p msg).2.encoding = MONO8) ∧
      (img.nChannels ≠ 1 →
        (update_img_msg cvLoadImage image_file img_p msg).2.encoding = RGB8) ∧
      (update_img_msg cvLoadImage image_file img_p msg).2.is_bigendian = 0 := by
  simp only [update_img_msg, hpath, hdec, if_false]
  refine ⟨trivial, ?_, ?_, trivial⟩
  · intro h; simp [h]
  · intro h; simp [h]

/-- Witness for C7: a four-channel image is tagged RGB8. -/
theorem update_img_msg_encoding_witness :
    (update_img_msg (fun _ => some ⟨4, 1, 1, 4, 4, [1, 2, 3, 4]⟩) "rgba.png" none
        Image.default).2.encoding =
        (if (4 : Int) = 1 then MONO8 else RGB8) ∧
      ((4 : Int) = 1 →
        (update_img_msg (fun _ => some ⟨4, 1, 1, 4, 4, [1, 2, 3, 4]⟩) "rgba.png" none
          Image.default).2.encoding = MONO8) ∧
      ((4 : Int) ≠ 1 →
        (update_img_msg (fun _ => some ⟨4, 1, 1, 4, 4, [1, 2, 3, 4]⟩) "rgba.png" none
          Image.default).2.encoding = RGB8) ∧
      (update_img_msg (fun _ => some ⟨4, 1, 1, 4, 4, [1, 2, 3, 4]⟩) "rgba.png" none
        Image.default).2.is_bigendian = 0 :=
  update_img_msg_encoding (fun _ => some ⟨4, 1, 1, 4, 4, [1, 2, 3, 4]⟩) "rgba.png" none
    Image.default ⟨4, 1, 1, 4, 4, [1, 2, 3, 4]⟩ (by decide) rfl

theorem toU32_of_int (x : Int) (h0 : 0 ≤ x) (h1 : x < 2 ^ 31) :
    ((toU32 x : Nat) : Int) = x := by
  unfold toU32
  have h2 : x % 2 ^ 32 = x := Int.emod_eq_of_lt h0 (by omega)
  rw [h2]
  exact Int.toNat_of_nonneg h0

/-- C8 (payload): for a non-empty path that decodes to a valid buffer, the
message data after `update_img_msg` equals the buffer's pixel bytes and its
length is `msg.height * msg.step`. -/
theorem update_img_msg_payload (cvLoadImage : String → Option IplImage)
    (image_file : String) (img_p : Option IplImage) (msg : Image) (img : IplImage)
    (hpath : image_file ≠ "") (hdec : cvLoadImage image_file = some img)
    (hvalid : valid_image img) :
    (update_img_msg cvLoadImage image_file img_p msg).2.data = img.imageData ∧
      (update_img_msg cvLoadImage image_file img_p msg).2.data.length =
        (update_img_msg cvLoadImage image_file img_p msg).2.height *
          (update_img_msg cvLoadImage image_file img_p msg).2.step := by
  obtain ⟨_, _, hh0, hh1, hs0, hs1, hz0, _, hsize, hlen⟩ := hvalid
  simp only [update_img_msg, hpath, hdec, if_false]
  have htake : img.imageData.take img.imageSize.toNat = img.imageData := by
    apply List.take_of_length_le
    have : ((img.imageData.length : Nat) : Int) = ((img.imageSize.toNat : Nat) : Int) := by
      rw [Int.toNat_of_nonneg hz0]; exact hlen
    exact le_of_eq (by exact_mod_cast this)
  rw [htake]
  refine ⟨rfl, ?_⟩
  have : ((img.imageData.length : Nat) : Int) =
      ((toU32 img.height * toU32 img.widthStep : Nat) : Int) := by
    rw [Nat.cast_mul, toU32_of_int _ hh0 hh1, toU32_of_int _ hs0 hs1, hlen, hsize]
  exact_mod_cast this

/-- Witness for C8: a 2x2 single-channel image with a row stride of 4 bytes. -/
theorem update_img_msg_payload_witness :
    (update_img_msg (fun _ => some ⟨1, 2, 2, 8, 4, [1, 2, 0, 0, 3, 4, 0, 0]⟩) "g.png" none
        Image.default).2.data = [1, 2, 0, 0, 3, 4, 0, 0] ∧
      (update_img_msg (fun _ => some ⟨1, 2, 2, 8, 4, [1, 2, 0, 0, 3, 4, 0, 0]⟩) "g.png" none
        Image.default).2.data.length =
        (update_img_msg (fun _ => some ⟨1, 2, 2, 8, 4, [1, 2, 0, 0, 3, 4, 0, 0]⟩) "g.png" none
          Image.default).2.height *
          (update_img_msg (fun _ => some ⟨1, 2, 2, 8, 4, [1, 2, 0, 0, 3, 4, 0, 0]⟩) "g.png"
            none Image.default).2.step :=
  update_img_msg_payload (fun _ => some ⟨1, 2, 2, 8, 4, [1, 2, 0, 0, 3, 4, 0, 0]⟩) "g.png"
    none Image.default ⟨1, 2, 2, 8, 4, [1, 2, 0, 0, 3, 4, 0, 0]⟩ (by decide) rfl
    (by simp [valid_image])

/-! ## Claims on `callback` -/

theorem callback_rate (cvLoadImage : String → Option IplImage) (config : FakeCameraConfig)
    (level : Nat) (s : Slots) :
    (callback cvLoadImage config level s).rate =
      if is_update config level "fps" then some ⟨config.fps⟩ else s.rate := by
  unfold callback
  by_cases h1 : is_update config level "image_file" = true <;>
    by_cases h2 : is_update config level "fps" = true <;> simp [h1, h2]

theorem callback_image (cvLoadImage : String → Option IplImage) (config : FakeCameraConfig)
    (level : Nat) (s : Slots) :
    ((callback cvLoadImage config level s).img, (callback cvLoadImage config level s).msg) =
      if is_update config level "image_file" then
        update_img_msg cvLoadImage config.image_file s.img s.msg
      else (s.img, s.msg) := by
  unfold callback
  by_cases h1 : is_update config level "image_file" = true <;>
    by_cases h2 : is_update config level "fps" = true <;> simp [h1, h2]

/-- C9 (frame conditions of `callback`): the image slot and the message after
the call are those of `update_img_msg` when `image_file` is reported changed
and the old ones otherwise, whatever the rate was; the rate after the call is
`ros::Rate(config.fps)` when `fps` is reported changed and the old one
otherwise, whatever the image and message were; so an event that reports
neither field leaves the image, the message and the rate unchanged. -/
theorem callback_frame (cvLoadImage : String → Option IplImage) (config : FakeCameraConfig)
    (level : Nat) (s : Slots) :
    (is_update config level "image_file" = false →
        (callback cvLoadImage config level s).img = s.img ∧
          (callback cvLoadImage config level s).msg = s.msg) ∧
      (is_update config level "fps" = false →
        (callback cvLoadImage config level s).rate = s.rate) ∧
      (((callback cvLoadImage config level s).img,
          (callback cvLoadImage config level s).msg) =
        if is_update config level "image_file" then
          update_img_msg cvLoadImage config.image_file s.img s.msg
        else (s.img, s.msg)) ∧
      ((callback cvLoadImage config level s).rate =
        if is_update config level "fps" then some ⟨config.fps⟩ else s.rate) ∧
      (is_update config level "image_file" = false →
        is_update config level "fps" = false →
        callback cvLoadImage config level s = s) := by
  have hr := callback_rate cvLoadImage config level s
  have hi := callback_image cvLoadImage config level s
  refine ⟨?_, ?_, hi, hr, ?_⟩
  · intro h
    rw [h] at hi
    simpa using hi
  · intro h
    rw [h] at hr
    simpa using hr
  · intro h1 h2
    simp [callback, h1, h2]

/-- C3 as amended (no validation of `fps`): whenever `fps` is reported
changed, `callback` replaces the rate limiter by `ros::Rate(config.fps)`,
also for a non-positive `config.fps`. -/
theorem callback_rate_replaced (cvLoadImage : String → Option IplImage)
    (config : FakeCameraConfig) (level : Nat) (s : Slots)
    (h : is_update config level "fps" = true) :
    (callback cvLoadImage config level s).rate = some ⟨config.fps⟩ := by
  rw [callback_rate, h]
  rfl

/-- Witness for the amended C3: a sentinel event carrying `fps = -5`. -/
theorem callback_rate_replaced_witness :
    (callback (fun _ => none) ⟨"", -5, [⟨"image_file", 1⟩, ⟨"fps", 2⟩]⟩ 0xffffffff
        ⟨none, Image.default, some ⟨30⟩⟩).rate = some ⟨-5⟩ :=
  callback_rate_replaced (fun _ => none) ⟨"", -5, [⟨"image_file", 1⟩, ⟨"fps", 2⟩]⟩
    0xffffffff ⟨none, Image.default, some ⟨30⟩⟩ (by decide)

/-- Counterexample to C3 as stated: `fps` is reported changed, `config.fps`
is -5, and the rate after the event differs from the rate before it. -/
theorem callback_nonpositive_fps_changes_rate :
    is_update ⟨"", -5, [⟨"image_file", 1⟩, ⟨"fps", 2⟩]⟩ 0xffffffff "fps" = true ∧
      (⟨"", -5, [⟨"image_file", 1⟩, ⟨"fps", 2⟩]⟩ : FakeCameraConfig).fps ≤ 0 ∧
      (callback (fun _ => none) ⟨"", -5, [⟨"image_file", 1⟩, ⟨"fps", 2⟩]⟩ 0xffffffff
        ⟨none, Image.default, some ⟨30⟩⟩).rate ≠
        (⟨none, Image.default, some ⟨30⟩⟩ : Slots).rate := by
  decide

/-! ## The publish loop -/

theorem dispatch_msg_count (cvLoadImage : String → Option IplImage) (s : MainState)
    (ev : Event) :
    (dispatch cvLoadImage s ev).msg = s.msg ∧ (dispatch cvLoadImage s ev).count = s.count :=
  ⟨rfl, rfl⟩

theorem foldl_dispatch_msg_count (cvLoadImage : String → Option IplImage)
    (evs : List Event) (s : MainState) :
    (evs.foldl (dispatch cvLoadImage) s).msg = s.msg ∧
      (evs.foldl (dispatch cvLoadImage) s).count = s.count := by
  induction evs generalizing s with
  | nil => exact ⟨rfl, rfl⟩
  | cons ev rest ih =>
    simp only [List.foldl_cons]
    obtain ⟨h1, h2⟩ := ih (dispatch cvLoadImage s ev)
    exact ⟨h1, h2⟩

theorem loop_body_count (cvLoadImage : String → Option IplImage) (t : Tick)
    (s : MainState) : (loop_body cvLoadImage t s).2.count = (s.count + 1) % 2 ^ 32 := by
  simp only [loop_body]
  rw [(foldl_dispatch_msg_count cvLoadImage t.events _).2]

theorem loop_body_msg (cvLoadImage : String → Option IplImage) (t : Tick)
    (s : MainState) : (loop_body cvLoadImage t s).2.msg = (loop_body cvLoadImage t s).1 := by
  simp only [loop_body]
  rw [(foldl_dispatch_msg_count cvLoadImage t.events _).1]

theorem main_init_count (cvLoadImage : String → Option IplImage) (image_file : String)
    (startup : List Event) : (main_init cvLoadImage image_file startup).count = 0 := by
  simp only [main_init]
  rw [(foldl_dispatch_msg_count cvLoadImage startup _).2]

theorem publish_loop_length (cvLoadImage : String → Option IplImage) (ticks : List Tick)
    (s : MainState) : (publish_loop cvLoadImage ticks s).length = ticks.length := by
  induction ticks generalizing s with
  | nil => rfl
  | cons t ts ih => simp [publish_loop, ih]

theorem publish_loop_seq (cvLoadImage : String → Option IplImage) (ticks : List Tick)
    (s : MainState) (hc : s.count < 2 ^ 32) (n : Nat) (m : Image)
    (hm : (publish_loop cvLoadImage ticks s)[n]? = some m) :
    m.header.seq = (s.count + n) % 2 ^ 32 := by
  induction ticks generalizing s n with
  | nil => simp [publish_loop] at hm
  | cons t ts ih =>
    cases n with
    | zero =>
      simp only [publish_loop, List.getElem?_cons_zero, Option.some.injEq] at hm
      subst hm
      simp only [loop_body, Nat.add_zero]
      exact (Nat.mod_eq_of_lt hc).symm
    | succ k =>
      simp only [publish_loop, List.getElem?_cons_succ] at hm
      have hcount := loop_body_count cvLoadImage t s
      have hlt : (loop_body cvLoadImage t s).2.count < 2 ^ 32 := by
        rw [hcount]; exact Nat.mod_lt _ (by norm_num)
      rw [ih _ hlt k hm, hcount]
      omega

theorem publish_loop_nsec (cvLoadImage : String → Option IplImage) (ticks : List Tick)
    (s : MainState) :
    (publish_loop cvLoadImage ticks s).map (fun m => m.header.stamp_nsec) =
      ticks.map (fun t => (t.now.sec * 1000000000 + t.now.nsec) % 2 ^ 32) := by
  induction ticks generalizing s with
  | nil => rfl
  | cons t ts ih =>
    simp only [publish_loop, List.map_cons, ih]
    congr 1
    simp only [loop_body, Time.toNSec]
    exact Nat.mod_mod_of_dvd _ (by norm_num)

/-- C6 (sequence numbers): when `main` is given its image argument, it
publishes one message per iteration and the message of iteration `n`
(counting from 0) has `header.seq = n mod 2^32`, whatever events arrive; so
the first message has `seq = 0`, each next one has the previous value plus
one, and the value after 4294967295 is 0. -/
theorem main_seq (cvLoadImage : String → Option IplImage) (argv : List String)
    (startup : List Event) (ticks : List Tick) (hargs : 2 ≤ argv.length) :
    ∃ msgs, main cvLoadImage argv startup ticks = some msgs ∧
      msgs.length = ticks.length ∧
      ∀ n m, msgs[n]? = some m → m.header.seq = n % 2 ^ 32 := by
  match argv, hargs with
  | _ :: image_file :: _, _ =>
    refine ⟨_, rfl, publish_loop_length _ _ _, ?_⟩
    intro n m hm
    have h0 := main_init_count cvLoadImage image_file startup
    have := publish_loop_seq cvLoadImage ticks _ (by rw [h0]; norm_num) n m hm
    rw [this, h0, Nat.zero_add]

/-- Witness for C6 on a run of two iterations with an event in between. -/
theorem main_seq_witness :
    ∃ msgs, main decAB ["fake_camera", "a.png"] [] sampleTicks = some msgs ∧
      msgs.length = sampleTicks.length ∧
      ∀ n m, msgs[n]? = some m → m.header.seq = n % 2 ^ 32 :=
  main_seq decAB ["fake_camera", "a.png"] [] sampleTicks (by decide)

/-- C10 (stamp.nsec): the message of every iteration carries in
`header.stamp.nsec` the total nanoseconds of the clock reading reduced
modulo 2^32, `(sec * 10^9 + nsec) mod 2^32`; for the clock reading of 1 s and
0 ns this is 1000000000, which is not below 10^9. -/
theorem main_stamp_nsec (cvLoadImage : String → Option IplImage) (argv : List String)
    (startup : List Event) (ticks : List Tick) (hargs : 2 ≤ argv.length) :
    (∃ msgs, main cvLoadImage argv startup ticks = some msgs ∧
      msgs.map (fun m => m.header.stamp_nsec) =
        ticks.map (fun t => (t.now.sec * 1000000000 + t.now.nsec) % 2 ^ 32)) ∧
      ∃ msgs m, main cvLoadImage argv startup [⟨1, ⟨1, 0⟩, []⟩] = some msgs ∧
        msgs[0]? = some m ∧ 1000000000 ≤ m.header.stamp_nsec := by
  match argv, hargs with
  | _ :: image_file :: _, _ =>
    refine ⟨⟨_, rfl, publish_loop_nsec _ _ _⟩, ⟨_, _, rfl, rfl, ?_⟩⟩
    simp [publish_loop, loop_body, Time.toNSec]

/-- Witness for C10 on the sample run. -/
theorem main_stamp_nsec_witness :
    (∃ msgs, main decAB ["fake_camera", "a.png"] [] sampleTicks = some msgs ∧
      msgs.map (fun m => m.header.stamp_nsec) =
        sampleTicks.map (fun t => (t.now.sec * 1000000000 + t.now.nsec) % 2 ^ 32)) ∧
      ∃ msgs m, main decAB ["fake_camera", "a.png"] [] [⟨1, ⟨1, 0⟩, []⟩] = some msgs ∧
        msgs[0]? = some m ∧ 1000000000 ≤ m.header.stamp_nsec :=
  main_stamp_nsec decAB ["fake_camera", "a.png"] [] sampleTicks (by decide)

/-! ## The message copy held by the bound callback -/

/-- The image part of a message: everything but the header. -/
theorem loop_body_image_fields (cvLoadImage : String → Option IplImage) (t : Tick)
    (s : MainState) :
    (loop_body cvLoadImage t s).1.width = s.msg.width ∧
      (loop_body cvLoadImage t s).1.height = s.msg.height ∧
      (loop_body cvLoadImage t s).1.step = s.msg.step ∧
      (loop_body cvLoadImage t s).1.encoding = s.msg.encoding ∧
      (loop_body cvLoadImage t s).1.data = s.msg.data :=
  ⟨rfl, rfl, rfl, rfl, rfl⟩

/-- Every message the loop publishes carries the image fields that the local
`msg` had when the loop was entered: the events dispatched by `spinOnce`
write to the copy inside the bound callback and never to the local `msg`. -/
theorem publish_loop_image_fixed (cvLoadImage : String → Option IplImage)
    (ticks : List Tick) (s : MainState) (m : Image)
    (hm : m ∈ publish_loop cvLoadImage ticks s) :
    m.width = s.msg.width ∧ m.height = s.msg.height ∧ m.step = s.msg.step ∧
      m.encoding = s.msg.encoding ∧ m.data = s.msg.data := by
  induction ticks generalizing s with
  | nil => simp [publish_loop] at hm
  | cons t ts ih =>
    simp only [publish_loop, List.mem_cons] at hm
    rcases hm with rfl | hm
    · exact loop_body_image_fields cvLoadImage t s
    · have h := ih _ hm
      rw [loop_body_msg] at h
      exact h

/-- C2 evaluated on a run: `main` starts on `a.png`; during the first
iteration an event reports `image_file` changed and `b.png` decodes; the
image slot and the callback's message copy then hold the new image, yet the
message published by the next iteration still carries the width, height,
step, encoding and data of `a.png`. -/
theorem main_publishes_stale_image :
    is_update ⟨"b.png", 30, sampleTable⟩ 1 "image_file" = true ∧
      decAB "b.png" = some imgB ∧
      (loop_body decAB ⟨100, ⟨100, 5⟩, [⟨⟨"b.png", 30, sampleTable⟩, 1⟩]⟩
        (main_init decAB "a.png" [])).2.img = some imgB ∧
      (loop_body decAB ⟨100, ⟨100, 5⟩, [⟨⟨"b.png", 30, sampleTable⟩, 1⟩]⟩
        (main_init decAB "a.png" [])).2.bound_msg.data = imgB.imageData ∧
      ∃ m0 m1, main decAB ["fake_camera", "a.png"] [] sampleTicks = some [m0, m1] ∧
        m1.header.seq = 1 ∧
        (m1.width, m1.height, m1.step, m1.encoding, m1.data) =
          (1, 1, 4, RGB8, imgA.imageData) ∧
        (m1.width, m1.height, m1.step, m1.encoding, m1.data) ≠
          (2, 1, 4, MONO8, imgB.imageData) := by
  refine ⟨by decide, by decide, by decide, by decide, _, _, rfl, ?_, ?_, ?_⟩ <;> decide

end FakeCamera
